import Mathlib

/-!
Verification of the incus-guestapi guest client against its specification.

The development shallowly embeds the package's pure logic:

* the `incus` package's event model and `Event.UnmarshalJSON` decoder,
  translated over an explicit JSON value type (`Json`), with Go's
  `encoding/json` conventions made explicit (an absent field unmarshals as
  `nil` and errors; a JSON `null` leaves the target value unchanged);
* the query-building and read-loop logic of `GuestClient.ListenForEvents`;
* the key-formatting and status-code handling of `GuestClient.Config`,
  `GuestClient.HasConfig`, `GuestClient.Metadata` and the shared `handlejson`
  helper.
-/

/-- A parsed JSON value: the shape of one wire message after Go's
`encoding/json` has tokenised it.  `obj` keeps fields in written order. -/
inductive Json where
  | null
  | bool (b : Bool)
  | num (n : Int)
  | str (s : String)
  | arr (elems : List Json)
  | obj (fields : List (String × Json))

/-- Field lookup in a JSON object, modelling unmarshalling into a Go
`map[string]json.RawMessage`: a repeated name resolves to its last
occurrence, as Go's decoder overwrites earlier entries. -/
def jlookup (fields : List (String × Json)) (k : String) : Option Json :=
  match fields with
  | [] => none
  | (k2, v) :: rest =>
    match jlookup rest k with
    | some r => some r
    | none => if k2 == k then some v else none

/-- Decode errors produced by Go's `encoding/json` in the paths the event
decoder exercises. -/
inductive DecErr where
  /-- `json.Unmarshal(nil, ...)`: the field was absent from the object. -/
  | unmarshalNil
  /-- The JSON value cannot be unmarshalled into the Go target type. -/
  | typeMismatch
deriving DecidableEq

/-- Models `json.Unmarshal(raw, &s)` for a zero-valued Go `string` target
(also used for `EventType`, a string type): an absent field is a `nil`
`RawMessage` and errors; a JSON `null` leaves the target unchanged (Go's
documented convention), so the zero value `""` is returned; a JSON string
yields its contents; any other shape is a type mismatch. -/
def decodeGoString (raw : Option Json) : Except DecErr String :=
  match raw with
  | none => .error .unmarshalNil
  | some .null => .ok ""
  | some (.str s) => .ok s
  | some _ => .error .typeMismatch

/-- Models decoding one `string`-typed struct field during `json.Unmarshal`
of an object into a Go struct: an absent or `null` field leaves the zero
value, a string is taken as is, anything else is a type mismatch. -/
def structStringField (fields : List (String × Json)) (nm : String) :
    Except DecErr String :=
  match jlookup fields nm with
  | none => .ok ""
  | some .null => .ok ""
  | some (.str s) => .ok s
  | some _ => .error .typeMismatch

/-- Go: `type EventType string`. -/
abbrev EventType := String

/-- Go: `EventTypeConfig EventType = "config"`. -/
def EventTypeConfig : EventType := "config"

/-- Go: `EventTypeDevice EventType = "device"`. -/
def EventTypeDevice : EventType := "device"

/-- Go: `func (et EventType) Valid() bool`. -/
def EventType.Valid (et : EventType) : Bool :=
  if et != EventTypeConfig && et != EventTypeDevice then false else true

/-- Go struct `ConfigUpdateMetadata` with json tags
`key`, `old_value`, `value`. -/
structure ConfigUpdateMetadata where
  Key : String
  OldValue : String
  Value : String
deriving DecidableEq

/-- The zero value of `ConfigUpdateMetadata`. -/
def ConfigUpdateMetadata.zero : ConfigUpdateMetadata := ⟨"", "", ""⟩

/-- Go struct `DeviceConfig` with json tags `type`, `path`. -/
structure DeviceConfig where
  type : String
  Path : String
deriving DecidableEq

/-- The zero value of `DeviceConfig`. -/
def DeviceConfig.zero : DeviceConfig := ⟨"", ""⟩

/-- Go struct `DeviceUpdateMetadata` with json tags
`name`, `action`, `config`. -/
structure DeviceUpdateMetadata where
  Name : String
  Action : String
  Config : DeviceConfig
deriving DecidableEq

/-- The zero value of `DeviceUpdateMetadata`. -/
def DeviceUpdateMetadata.zero : DeviceUpdateMetadata := ⟨"", "", DeviceConfig.zero⟩

/-- Go struct `Event`: the envelope fields `timestamp` and `type` plus the
two untagged payload variants populated by `Event.UnmarshalJSON`.
(The Go field `Type` is rendered `type`, as `Type` is taken in Lean.) -/
structure Event where
  Timestamp : String
  type : EventType
  Config : ConfigUpdateMetadata
  Device : DeviceUpdateMetadata
deriving DecidableEq

/-- Models `json.Unmarshal(meta, &e.Config)` for the zero-valued struct
`ConfigUpdateMetadata`: `null` is a no-op, an object decodes the three
string fields (absent ones stay zero), any other shape errors. -/
def ConfigUpdateMetadata.unmarshal (j : Json) :
    Except DecErr ConfigUpdateMetadata :=
  match j with
  | .null => .ok .zero
  | .obj fields =>
    match structStringField fields "key" with
    | .error e => .error e
    | .ok k =>
      match structStringField fields "old_value" with
      | .error e => .error e
      | .ok ov =>
        match structStringField fields "value" with
        | .error e => .error e
        | .ok v => .ok ⟨k, ov, v⟩
  | _ => .error .typeMismatch

/-- Models `json.Unmarshal` into a zero-valued `DeviceConfig`. -/
def DeviceConfig.unmarshal (j : Json) : Except DecErr DeviceConfig :=
  match j with
  | .null => .ok .zero
  | .obj fields =>
    match structStringField fields "type" with
    | .error e => .error e
    | .ok t =>
      match structStringField fields "path" with
      | .error e => .error e
      | .ok p => .ok ⟨t, p⟩
  | _ => .error .typeMismatch

/-- Models `json.Unmarshal(meta, &e.Device)` for the zero-valued struct
`DeviceUpdateMetadata`, including its nested `config` record. -/
def DeviceUpdateMetadata.unmarshal (j : Json) :
    Except DecErr DeviceUpdateMetadata :=
  match j with
  | .null => .ok .zero
  | .obj fields =>
    match structStringField fields "name" with
    | .error e => .error e
    | .ok n =>
      match structStringField fields "action" with
      | .error e => .error e
      | .ok a =>
        match jlookup fields "config" with
        | none => .ok ⟨n, a, DeviceConfig.zero⟩
        | some cj =>
          match DeviceConfig.unmarshal cj with
          | .error e => .error e
          | .ok c => .ok ⟨n, a, c⟩
  | _ => .error .typeMismatch

/-- The body of `Event.UnmarshalJSON` once the message has been read into
`map[string]json.RawMessage`: decode the mandatory `timestamp` and `type`
fields, then switch on `e.Type`, delegating an existing `metadata` field to
the matching payload decoder and returning the event unchanged when
`metadata` is absent or the type matches neither known constant. -/
def Event.unmarshalFields (fields : List (String × Json)) :
    Except DecErr Event :=
  match decodeGoString (jlookup fields "timestamp") with
  | .error e => .error e
  | .ok ts =>
    match decodeGoString (jlookup fields "type") with
    | .error e => .error e
    | .ok ty =>
      if ty == "config" then
        match jlookup fields "metadata" with
        | none => .ok ⟨ts, ty, .zero, .zero⟩
        | some meta =>
          match ConfigUpdateMetadata.unmarshal meta with
          | .error e => .error e
          | .ok c => .ok ⟨ts, ty, c, .zero⟩
      else if ty == "device" then
        match jlookup fields "metadata" with
        | none => .ok ⟨ts, ty, .zero, .zero⟩
        | some meta =>
          match DeviceUpdateMetadata.unmarshal meta with
          | .error e => .error e
          | .ok d => .ok ⟨ts, ty, .zero, d⟩
      else
        .ok ⟨ts, ty, .zero, .zero⟩

/-- Go: `func (e *Event) UnmarshalJSON(data []byte) error`, over an already
tokenised JSON value.  A top-level `null` leaves the intermediary map `nil`
(Go's `null` convention), after which the `timestamp` lookup fails exactly
as on an empty object; any other non-object shape fails to unmarshal into
the map at all. -/
def Event.unmarshalJSON (j : Json) : Except DecErr Event :=
  match j with
  | .obj fields => Event.unmarshalFields fields
  | .null => Event.unmarshalFields []
  | _ => .error .typeMismatch

/-- The query-building step of `GuestClient.ListenForEvents`, expressed at
the level of `url.Values` content (before percent-encoding): when the
caller's list is non-empty the source filters it with `EventType.Valid`
(the append loop preserves order, i.e. `List.filter`), joins the survivors
with `","` and always adds the result as the single `type` parameter; when
the list is empty the endpoint keeps no query at all (`none`). -/
def subscribeQueryParam (events : List EventType) : Option (String × String) :=
  if events.length > 0 then
    some ("type", String.intercalate "," (events.filter (fun ev => EventType.Valid ev)))
  else
    none

/-- Errors that terminate the read loop of `GuestClient.ListenForEvents`. -/
inductive StreamErr where
  /-- `error in reader: ...` — `conn.Reader` failed (connection drop). -/
  | readerError
  /-- `error in json unmarshaller: ...` — the message failed to decode. -/
  | decodeError (e : DecErr)
deriving DecidableEq

/-- The read loop of `GuestClient.ListenForEvents`.  `cancel` is the number
of loop iterations before `ctx.Done()` is observed: the source polls
cancellation at the top of every iteration, so with `cancel = 0` the loop
returns `nil` (success) before the next read.  `reads` gives the outcome of
each successive `conn.Reader` call (the host never stops answering reads:
a closed connection surfaces as a read error).  The returned list records,
in order, the events handed to `go callback(ev)`; a read error or a decode
failure ends the subscription with the corresponding error. -/
def listenLoop : Nat → (Nat → Except Unit Json) → List Event × Except StreamErr Unit
  | 0, _ => ([], .ok ())
  | Nat.succ n, reads =>
    match reads 0 with
    | .error _ => ([], .error .readerError)
    | .ok msg =>
      match Event.unmarshalJSON msg with
      | .error e => ([], .error (.decodeError e))
      | .ok ev =>
        let r := listenLoop n (fun i => reads (i + 1))
        (ev :: r.1, r.2)

/-- A read source delivering the listed messages in order, after which the
connection drops (every further read errors). -/
def readsOfList (msgs : List Json) : Nat → Except Unit Json :=
  fun i =>
    match msgs[i]? with
    | some m => .ok m
    | none => .error ()

/-- Models Go `strings.HasPrefix s p` at the character level (the two agree
whenever `p` is ASCII, as both constants used by the client are). -/
def goStartsWith (s p : String) : Bool :=
  p.data.isPrefixOf s.data

/-- Go constant `ConfigPath = "/1.0/1.0/config"`. -/
def ConfigPath : String := "/1.0/1.0/config"

/-- The key-formatting step of `GuestClient.Config`: a key carrying neither
the `cloud-init.` nor the `user.` namespace is given the `user.` one. -/
def Config.formatKey (key : String) : String :=
  if !(goStartsWith key "cloud-init.") && !(goStartsWith key "user.") then
    "user." ++ key
  else
    key

/-- The key-formatting step of `GuestClient.HasConfig`, translated from its
own body (textually the same computation as in `Config`). -/
def HasConfig.formatKey (key : String) : String :=
  if !(goStartsWith key "cloud-init.") && !(goStartsWith key "user.") then
    "user." ++ key
  else
    key

/-- The request path built by `GuestClient.Config` for a key, abstracting
`url.JoinPath` to plain `/`-joining (exact for percent-safe keys). -/
def Config.lookupPath (key : String) : String :=
  ConfigPath ++ "/" ++ Config.formatKey key

/-- The request path built by `GuestClient.HasConfig` for a key. -/
def HasConfig.lookupPath (key : String) : String :=
  ConfigPath ++ "/" ++ HasConfig.formatKey key

/-- Client-side errors relevant to response handling (`UnexpectedStatusCode`
is the package-level sentinel, wrapped together with the status). -/
inductive GuestErr where
  | unexpectedStatusCode (code : Nat)
  | unmarshalError
deriving DecidableEq

/-- The response handling of `GuestClient.Config`: `404` is "absent" and
yields `""` with no error, any other non-`200` status is an
`UnexpectedStatusCode` error, and `200` yields the body. -/
def Config.handleResponse (status : Nat) (body : String) :
    Except GuestErr String :=
  if status == 404 then .ok ""
  else if status != 200 then .error (.unexpectedStatusCode status)
  else .ok body

/-- The response handling of `GuestClient.HasConfig`: `404` yields `false`
with no error, any other non-`200` status errors, `200` yields `true`. -/
def HasConfig.handleResponse (status : Nat) : Except GuestErr Bool :=
  if status == 404 then .ok false
  else if status != 200 then .error (.unexpectedStatusCode status)
  else .ok true

/-- The response handling of the generic `handlejson` helper shared by
`Info`, `ListConfig` and `Devices`: any non-`200` status — `404` included —
is an `UnexpectedStatusCode` error; on `200` the body is unmarshalled into
the target type via `dec`. -/
def handlejson {T : Type} (status : Nat) (payload : String)
    (dec : String → Option T) : Except GuestErr T :=
  if status != 200 then .error (.unexpectedStatusCode status)
  else
    match dec payload with
    | none => .error .unmarshalError
    | some t => .ok t

/-- The response handling of `GuestClient.Metadata`: any non-`200` status is
an `UnexpectedStatusCode` error; on `200` the raw body is returned. -/
def Metadata.handleResponse (status : Nat) (body : String) :
    Except GuestErr String :=
  if status != 200 then .error (.unexpectedStatusCode status)
  else .ok body

/-- The first read of a listed source yields the first message. -/
theorem readsOfList_cons_zero (m : Json) (rest : List Json) :
    readsOfList (m :: rest) 0 = .ok m := by
  simp [readsOfList]

/-- Advancing a listed read source by one position drops its head. -/
theorem readsOfList_shift (m : Json) (rest : List Json) :
    (fun i => readsOfList (m :: rest) (i + 1)) = readsOfList rest := by
  funext i
  simp [readsOfList]

/-- Decomposition of the read loop: messages that all decode are consumed
one per iteration, each invoking the callback in arrival order, after which
the loop continues on the remaining budget and source. -/
theorem listenLoop_consume (msgs tail : List Json) (events : List Event)
    (extra : Nat)
    (h : msgs.map Event.unmarshalJSON = events.map Except.ok) :
    listenLoop (msgs.length + extra) (readsOfList (msgs ++ tail))
      = (events ++ (listenLoop extra (readsOfList tail)).1,
         (listenLoop extra (readsOfList tail)).2) := by
  induction msgs generalizing events with
  | nil =>
    have hev : events = [] := by
      cases events with
      | nil => rfl
      | cons e es => simp at h
    subst hev
    simp
  | cons m rest ih =>
    cases events with
    | nil => simp at h
    | cons e es =>
      rw [List.map_cons, List.map_cons] at h
      injection h with hm hrest
      have hlen : (m :: rest).length + extra = Nat.succ (rest.length + extra) := by
        simp [List.length_cons]
        omega
      rw [hlen]
      have hcons : (m :: rest) ++ tail = m :: (rest ++ tail) := rfl
      rw [hcons]
      simp only [listenLoop, readsOfList_cons_zero, hm, readsOfList_shift]
      rw [ih es hrest]
      simp

/-- C1 (counterexample): a wire message whose `type` is the unknown string
`"bogus"` does not fail to decode — `Event.UnmarshalJSON` falls through its
switch and silently returns an event of that type with empty payloads. -/
theorem decode_bogus_type_succeeds :
    Event.unmarshalJSON (.obj [("timestamp", .str "t"), ("type", .str "bogus")])
      = .ok ⟨"t", "bogus", .zero, .zero⟩ := rfl

/-- C1 (amended): for every wire message whose `type` field is a string
other than `config` and `device`, decoding succeeds (with or without a
`metadata` field), yielding an event carrying the unknown type and all
payload fields zero; the decoder never rejects an unknown type. -/
theorem decode_unknown_type_yields_empty_event (ts s : String) (m : Json)
    (h1 : s ≠ "config") (h2 : s ≠ "device") :
    Event.unmarshalJSON (.obj [("timestamp", .str ts), ("type", .str s)])
      = .ok ⟨ts, s, .zero, .zero⟩ ∧
    Event.unmarshalJSON
        (.obj [("timestamp", .str ts), ("type", .str s), ("metadata", m)])
      = .ok ⟨ts, s, .zero, .zero⟩ := by
  constructor <;>
    simp [Event.unmarshalJSON, Event.unmarshalFields, jlookup, decodeGoString,
      h1, h2]

/-- C1 (witness): the amended statement evaluated at type `"weird"` with a
`metadata` field present. -/
theorem decode_unknown_type_yields_empty_event_witness :
    Event.unmarshalJSON (.obj [("timestamp", .str "t"), ("type", .str "weird"),
        ("metadata", .null)])
      = .ok ⟨"t", "weird", .zero, .zero⟩ :=
  (decode_unknown_type_yields_empty_event "t" "weird" .null
    (by decide) (by decide)).2

/-- C2 (counterexample): subscribing with the non-empty all-invalid list
`["invalid"]` leaves nothing after filtering, yet a `type` query parameter
with empty value is still attached — not `none` as the claim states. -/
theorem subscribe_all_invalid_attaches_empty_param :
    (["invalid"] : List EventType).filter (fun ev => EventType.Valid ev) = []
      ∧ subscribeQueryParam ["invalid"] = some ("type", "") := by
  constructor <;> rfl

/-- C2 (amended): an empty requested list attaches no query parameter; a
non-empty list always attaches a single `type` parameter whose value is the
comma-joined valid members in order — in particular, when every entry is
invalid the parameter is attached with the empty value. -/
theorem subscribe_query_param_characterization (events : List EventType) :
    subscribeQueryParam [] = none ∧
    (events ≠ [] →
      subscribeQueryParam events
        = some ("type", String.intercalate ","
            (events.filter (fun ev => EventType.Valid ev)))) ∧
    (events ≠ [] → events.filter (fun ev => EventType.Valid ev) = [] →
      subscribeQueryParam events = some ("type", "")) := by
  refine ⟨rfl, fun h => ?_, fun h hf => ?_⟩
  · simp [subscribeQueryParam, List.length_pos.mpr h]
  · simp [subscribeQueryParam, List.length_pos.mpr h, hf, String.intercalate]

/-- C2 (witness): the amended statement evaluated at `[config, "invalid"]`,
where the invalid entry is dropped and only `config` is requested. -/
theorem subscribe_query_param_characterization_witness :
    subscribeQueryParam ["config", "invalid"] = some ("type", "config") := by
  have h := (subscribe_query_param_characterization ["config", "invalid"]).2.1
    (by decide)
  exact h

/-- C3: a wire message with `type=config` and a `metadata` field of the
ConfigUpdate shape decodes to an event populating exactly the config
payload, the device payload staying zero; symmetrically for `type=device`
with its nested device-config, the config payload staying zero. -/
theorem decode_known_types_populate_exactly_one_variant
    (ts k ov v n a dt p : String) :
    Event.unmarshalJSON (.obj [("timestamp", .str ts), ("type", .str "config"),
        ("metadata", .obj [("key", .str k), ("old_value", .str ov),
          ("value", .str v)])])
      = .ok ⟨ts, "config", ⟨k, ov, v⟩, .zero⟩ ∧
    Event.unmarshalJSON (.obj [("timestamp", .str ts), ("type", .str "device"),
        ("metadata", .obj [("name", .str n), ("action", .str a),
          ("config", .obj [("type", .str dt), ("path", .str p)])])])
      = .ok ⟨ts, "device", .zero, ⟨n, a, ⟨dt, p⟩⟩⟩ :=
  ⟨rfl, rfl⟩

/-- C4 (counterexample): a message whose `type` field is JSON `null` is
wrong-shaped for a string, yet decodes successfully — Go's decoder treats
`null` as a no-op, leaving the type empty, and the switch falls through. -/
theorem decode_null_type_succeeds :
    Event.unmarshalJSON (.obj [("timestamp", .str "t"), ("type", .null)])
      = .ok ⟨"t", "", .zero, .zero⟩ := rfl

/-- C4 (amended): `timestamp` and `type` are mandatory — an absent field
fails the decode, and a present field of any shape other than string fails
too, except JSON `null`, which the decoder tolerates and leaves as the
empty string; a message with a known `type` and no `metadata` field decodes
successfully with every payload field zero. -/
theorem decode_mandatory_envelope_fields (ts ty : String) (j : Json) :
    Event.unmarshalJSON (.obj [("timestamp", .str ts)]) = .error .unmarshalNil ∧
    Event.unmarshalJSON (.obj [("type", .str ty)]) = .error .unmarshalNil ∧
    Event.unmarshalJSON (.obj []) = .error .unmarshalNil ∧
    ((∀ s, j ≠ .str s) → j ≠ .null →
      Event.unmarshalJSON (.obj [("timestamp", .str ts), ("type", j)])
        = .error .typeMismatch) ∧
    ((∀ s, j ≠ .str s) → j ≠ .null →
      Event.unmarshalJSON (.obj [("timestamp", j), ("type", .str ty)])
        = .error .typeMismatch) ∧
    Event.unmarshalJSON (.obj [("timestamp", .str ts), ("type", .str "config")])
      = .ok ⟨ts, "config", .zero, .zero⟩ ∧
    Event.unmarshalJSON (.obj [("timestamp", .str ts), ("type", .str "device")])
      = .ok ⟨ts, "device", .zero, .zero⟩ := by
  refine ⟨rfl, rfl, rfl, fun hs hn => ?_, fun hs hn => ?_, rfl, rfl⟩ <;>
    cases j <;>
      simp_all [Event.unmarshalJSON, Event.unmarshalFields, jlookup,
        decodeGoString]

/-- C4 (witness): the amended statement evaluated at numeric `type` and
numeric `timestamp` fields, both rejected as type mismatches. -/
theorem decode_mandatory_envelope_fields_witness :
    Event.unmarshalJSON (.obj [("timestamp", .str "t"), ("type", .num 5)])
      = .error .typeMismatch ∧
    Event.unmarshalJSON (.obj [("timestamp", .num 5), ("type", .str "config")])
      = .error .typeMismatch :=
  ⟨(decode_mandatory_envelope_fields "t" "config" (.num 5)).2.2.2.1
      (by intro s; simp) (by simp),
   (decode_mandatory_envelope_fields "t" "config" (.num 5)).2.2.2.2.1
      (by intro s; simp) (by simp)⟩

/-- C5: when every one of the N streamed messages reads and decodes
successfully and cancellation is observed at the top of iteration N+1, the
callback is handed exactly the N decoded events in arrival order and the
loop returns success. -/
theorem listen_cancel_after_n_messages (msgs : List Json) (events : List Event)
    (h : msgs.map Event.unmarshalJSON = events.map Except.ok) :
    listenLoop msgs.length (readsOfList msgs) = (events, .ok ()) ∧
    events.length = msgs.length := by
  constructor
  · have hc := listenLoop_consume msgs [] events 0 h
    simpa [listenLoop] using hc
  · have hlen := congrArg List.length h
    simpa using hlen.symm

/-- C5 (witness): a two-message run, cancelled before the third read,
invokes the callback twice in order and returns success. -/
theorem listen_cancel_after_n_messages_witness :
    listenLoop 2 (readsOfList
        [.obj [("timestamp", .str "t1"), ("type", .str "config")],
         .obj [("timestamp", .str "t2"), ("type", .str "device")]])
      = ([⟨"t1", "config", .zero, .zero⟩, ⟨"t2", "device", .zero, .zero⟩],
         .ok ()) :=
  (listen_cancel_after_n_messages
    [.obj [("timestamp", .str "t1"), ("type", .str "config")],
     .obj [("timestamp", .str "t2"), ("type", .str "device")]]
    [⟨"t1", "config", .zero, .zero⟩, ⟨"t2", "device", .zero, .zero⟩] rfl).1

/-- C6: when the first k messages read and decode successfully and the next
read fails (connection drop) — or the next message fails to decode — before
cancellation is observed, the callback is handed exactly the k decoded
events and the loop terminates with that error instead of skipping on. -/
theorem listen_error_terminates_subscription (msgs : List Json)
    (events : List Event) (bad : Json) (e : DecErr) (cancel : Nat)
    (h : msgs.map Event.unmarshalJSON = events.map Except.ok)
    (hbad : Event.unmarshalJSON bad = .error e)
    (hc : msgs.length < cancel) :
    listenLoop cancel (readsOfList msgs) = (events, .error .readerError) ∧
    listenLoop cancel (readsOfList (msgs ++ [bad]))
      = (events, .error (.decodeError e)) := by
  obtain ⟨d, rfl⟩ : ∃ d, cancel = msgs.length + (d + 1) :=
    ⟨cancel - msgs.length - 1, by omega⟩
  constructor
  · have hc1 := listenLoop_consume msgs [] events (d + 1) h
    rw [List.append_nil] at hc1
    rw [hc1]
    simp [listenLoop, readsOfList]
  · have hc2 := listenLoop_consume msgs [bad] events (d + 1) h
    rw [hc2]
    simp [listenLoop, readsOfList, hbad]

/-- C6 (witness): one good message, then a dropped connection (left case)
or an undecodable message (right case); the callback runs once and the
error is returned. -/
theorem listen_error_terminates_subscription_witness :
    listenLoop 5 (readsOfList
        [.obj [("timestamp", .str "t1"), ("type", .str "config")]])
      = ([⟨"t1", "config", .zero, .zero⟩], .error .readerError) ∧
    listenLoop 5 (readsOfList
        [.obj [("timestamp", .str "t1"), ("type", .str "config")],
         .str "oops"])
      = ([⟨"t1", "config", .zero, .zero⟩], .error (.decodeError .typeMismatch)) :=
  listen_error_terminates_subscription
    [.obj [("timestamp", .str "t1"), ("type", .str "config")]]
    [⟨"t1", "config", .zero, .zero⟩] (.str "oops") .typeMismatch 5
    rfl rfl (by decide)

/-- C7: both config-key lookups rewrite the key before building the request
path — a key carrying neither the `user.` nor the `cloud-init.` namespace
is prefixed with `user.`, and a key already carrying one of them is used
unmodified as the path suffix. -/
theorem config_key_formatting (key : String) :
    (goStartsWith key "user." = false → goStartsWith key "cloud-init." = false →
      Config.lookupPath key = ConfigPath ++ "/" ++ ("user." ++ key) ∧
      HasConfig.lookupPath key = ConfigPath ++ "/" ++ ("user." ++ key)) ∧
    (goStartsWith key "user." = true ∨ goStartsWith key "cloud-init." = true →
      Config.lookupPath key = ConfigPath ++ "/" ++ key ∧
      HasConfig.lookupPath key = ConfigPath ++ "/" ++ key) := by
  constructor
  · intro h1 h2
    simp [Config.lookupPath, HasConfig.lookupPath, Config.formatKey,
      HasConfig.formatKey, h1, h2]
  · intro h
    rcases h with h | h <;>
      simp [Config.lookupPath, HasConfig.lookupPath, Config.formatKey,
        HasConfig.formatKey, h]

/-- C7 (witness): `"foo"` is looked up as `user.foo` and `"cloud-init.foo"`
unmodified, in both operations. -/
theorem config_key_formatting_witness :
    (Config.lookupPath "foo" = ConfigPath ++ "/" ++ ("user." ++ "foo") ∧
      HasConfig.lookupPath "foo" = ConfigPath ++ "/" ++ ("user." ++ "foo")) ∧
    (Config.lookupPath "cloud-init.foo" = ConfigPath ++ "/" ++ "cloud-init.foo" ∧
      HasConfig.lookupPath "cloud-init.foo"
        = ConfigPath ++ "/" ++ "cloud-init.foo") :=
  ⟨(config_key_formatting "foo").1 (by decide) (by decide),
   (config_key_formatting "cloud-init.foo").2 (.inr (by decide))⟩

/-- C8: for both config-key lookups, a 404 response is "absent" — empty
string, respectively `false`, with no error; a 200 response yields the body,
respectively `true`; and every other status is an error carrying the
unexpected status code. -/
theorem config_lookup_status_handling (status : Nat) (body : String)
    (h404 : status ≠ 404) (h200 : status ≠ 200) :
    Config.handleResponse 404 body = .ok "" ∧
    HasConfig.handleResponse 404 = .ok false ∧
    Config.handleResponse 200 body = .ok body ∧
    HasConfig.handleResponse 200 = .ok true ∧
    Config.handleResponse status body = .error (.unexpectedStatusCode status) ∧
    HasConfig.handleResponse status = .error (.unexpectedStatusCode status) := by
  refine ⟨rfl, rfl, rfl, rfl, ?_, ?_⟩ <;>
    simp [Config.handleResponse, HasConfig.handleResponse, h404, h200]

/-- C8 (witness): the statement evaluated at status 500 with body `"x"`. -/
theorem config_lookup_status_handling_witness :
    Config.handleResponse 500 "x" = .error (.unexpectedStatusCode 500) ∧
    HasConfig.handleResponse 500 = .error (.unexpectedStatusCode 500) :=
  ⟨(config_lookup_status_handling 500 "x" (by decide) (by decide)).2.2.2.2.1,
   (config_lookup_status_handling 500 "x" (by decide) (by decide)).2.2.2.2.2⟩

/-- C9: the key-formatting step is idempotent — a formatted key always
carries the `user.` or `cloud-init.` namespace, so formatting it again
changes nothing — and the value lookup and the existence check compute the
same formatted key for every input, so both address the same config key. -/
theorem config_key_formatting_idempotent_and_shared (key : String) :
    Config.formatKey (Config.formatKey key) = Config.formatKey key ∧
    (goStartsWith (Config.formatKey key) "user." = true ∨
      goStartsWith (Config.formatKey key) "cloud-init." = true) ∧
    HasConfig.formatKey key = Config.formatKey key := by
  refine ⟨?_, ?_, rfl⟩
  · by_cases h :
        (!(goStartsWith key "cloud-init.") && !(goStartsWith key "user.")) = true
    · have huser : goStartsWith ("user." ++ key) "user." = true := by
        simp [goStartsWith, String.data_append, List.isPrefixOf_iff_prefix]
      simp [Config.formatKey, h, huser]
    · simp [Config.formatKey, h]
  · cases hci : goStartsWith key "cloud-init." <;>
      cases hu : goStartsWith key "user."
    · have huser : goStartsWith ("user." ++ key) "user." = true := by
        simp [goStartsWith, String.data_append, List.isPrefixOf_iff_prefix]
      simp [Config.formatKey, hci, hu, huser]
    · simp [Config.formatKey, hci, hu]
    · simp [Config.formatKey, hci, hu]
    · simp [Config.formatKey, hci, hu]

/-- C10: the 404-as-absent tolerance is special to the config-key lookups —
the shared `handlejson` helper behind the instance-info, device-list and
config-key-list calls, and the cloud-init metadata fetch, both turn every
non-200 status (404 included) into an unexpected-status error, never into
an empty success. -/
theorem non_config_lookups_error_on_any_non_200 {T : Type} (status : Nat)
    (payload : String) (dec : String → Option T) (h : status ≠ 200) :
    handlejson status payload dec = .error (.unexpectedStatusCode status) ∧
    Metadata.handleResponse status payload
      = .error (.unexpectedStatusCode status) := by
  constructor <;> simp [handlejson, Metadata.handleResponse, h]

/-- C10 (witness): at status 404, both calls error rather than succeed. -/
theorem non_config_lookups_error_on_any_non_200_witness :
    handlejson 404 "body" (fun s => some s)
      = .error (.unexpectedStatusCode 404) ∧
    Metadata.handleResponse 404 "body" = .error (.unexpectedStatusCode 404) :=
  non_config_lookups_error_on_any_non_200 404 "body" (fun s => some s)
    (by decide)
